import Mathlib

/-!
Shallow embedding of the session-bound token-rotation core of the
django-quiz-server repository: the Redis-backed session store
(`authorization/redis_utils.py`), the refresh-rotation and logout
views (`authorization/views.py`), the cookie JWT authentication gate
(`authorization/authentication.py`), the scope permission
(`authorization/permissions.py`), the route-to-scope helper
(`authorization/utils.py`) and the response normalisation of
`core/exception_handler.py`.

Machine conventions: time instants and HTTP statuses are `Nat`;
the Django cache is an association list from keys to (value, ttl)
pairs whose per-key get/set/delete operations are atomic, matching
the per-key atomicity the underlying key-value service provides.
Signed tokens are modelled as their validated claim sets; an input of
type `Option (Option Token)` means: `none` = no cookie presented,
`some none` = a cookie that fails signature/expiry validation,
`some (some t)` = a cookie that validates to the claims `t`.
-/

namespace QuizAuth

/-- Value stored under a `jwt_session:`-prefixed key, as written by
`create_session` in `authorization/redis_utils.py`:
`{"user_id": ..., "refresh_jti": ..., "scope": ...}`. -/
structure StoredSession where
  user_id : String
  refresh_jti : String
  scope : String
deriving Repr, DecidableEq

/-- One cache slot: the JSON value together with the ttl the entry was
set with (`cache.set(key, value, timeout=ttl)`). -/
structure CacheEntry where
  val : StoredSession
  ttl : Nat
deriving Repr, DecidableEq

/-- The Django cache (Redis), restricted to the session keys: an
association list from session ids to entries. -/
abbrev Store := List (String × CacheEntry)

/-- Atomic per-key read, `cache.get(key)`. -/
def cacheGet (st : Store) (k : String) : Option CacheEntry :=
  (st.find? (fun p => p.1 == k)).map Prod.snd

/-- Atomic per-key write, `cache.set(key, value, timeout=ttl)`. -/
def cacheSet (st : Store) (k : String) (e : CacheEntry) : Store :=
  (k, e) :: st.filter (fun p => p.1 != k)

/-- Atomic per-key delete, `cache.delete(key)`; deleting an absent key
is a no-op. -/
def cacheDelete (st : Store) (k : String) : Store :=
  st.filter (fun p => p.1 != k)

/-- The `create_session` function of `authorization/redis_utils.py`:
ttl is clamped at zero (`max(..., 0)`, here by truncated `Nat`
subtraction) and a non-positive ttl aborts without writing. -/
def create_session (st : Store) (sid userId refreshJti : String)
    (expiresAt now : Nat) (scope : String) : Bool × Store :=
  let ttl := expiresAt - now
  if ttl = 0 then (false, st)
  else (true, cacheSet st sid ⟨⟨userId, refreshJti, scope⟩, ttl⟩)

/-- The `get_session` function of `authorization/redis_utils.py`: a pure
read returning the parsed record, `none` when the key is absent.  (The
JSON-decode-failure branch cannot arise in the typed store.) -/
def get_session (st : Store) (sid : String) : Option StoredSession :=
  (cacheGet st sid).map (fun e => e.val)

/-- Remaining ttl of a session entry, observable only for stating the
TTL-reset claims; `cache.set` is the sole operation that changes it. -/
def sessionTTL (st : Store) (sid : String) : Option Nat :=
  (cacheGet st sid).map (fun e => e.ttl)

/-- The `update_session_jti` function of `authorization/redis_utils.py`:
read the record, return `False` leaving the store untouched when it is
absent, otherwise overwrite `refresh_jti` and reset the ttl. -/
def update_session_jti (st : Store) (sid newRefreshJti : String)
    (expiresAt now : Nat) : Bool × Store :=
  match get_session st sid with
  | none => (false, st)
  | some sess =>
    let ttl := expiresAt - now
    (true, cacheSet st sid ⟨{ sess with refresh_jti := newRefreshJti }, ttl⟩)

/-- The `is_session_active` function of `authorization/redis_utils.py`. -/
def is_session_active (st : Store) (sid : String) : Bool :=
  (get_session st sid).isSome

/-- The `revoke_session` function of `authorization/redis_utils.py`:
an unconditional `cache.delete`. -/
def revoke_session (st : Store) (sid : String) : Store :=
  cacheDelete st sid

/-- ASCII lowering of one character, the effect of Python `str.lower`
on the ASCII route paths this code compares. -/
def lowerChar (c : Char) : Char :=
  if 65 ≤ c.toNat ∧ c.toNat ≤ 90 then Char.ofNat (c.toNat + 32) else c

/-- Python `path.lower()` on an ASCII path. -/
def lowerStr (s : String) : String := ⟨s.data.map lowerChar⟩

/-- Python `s.startswith(pre)`. -/
def startsWithStr (s pre : String) : Bool := pre.data.isPrefixOf s.data

/-- The `scope_from_path` function of `authorization/utils.py`. -/
def scope_from_path (path : String) : Option String :=
  let p := lowerStr path
  if startsWithStr p "/api/admin/" then some "admin"
  else if startsWithStr p "/api/user/" then some "user"
  else none

/-- Validated claim set of a signed token (access or refresh), as the
simplejwt layer exposes it: the unique id `jti`, the custom
`session_id` and `scope` claims (optional, matching the
membership-tested claim access of the source), and the `exp`
timestamp. -/
structure Token where
  jti : String
  session_id : Option String
  scope : Option String
  exp : Nat
deriving Repr, DecidableEq

/-- Outcome of `TokenRefreshAPIView.post` in `authorization/views.py`,
one constructor per `return` statement. -/
inductive RotateResult where
  | noToken
  | invalidToken
  | malformed
  | sessionNotFound
  | scopeMismatch
  | replayDetected
  | ok (access refresh : Token)
deriving Repr, DecidableEq

/-- HTTP status attached to each outcome of `TokenRefreshAPIView.post`. -/
def rotateStatus : RotateResult → Nat
  | .noToken => 401
  | .invalidToken => 401
  | .malformed => 401
  | .sessionNotFound => 401
  | .scopeMismatch => 403
  | .replayDetected => 401
  | .ok _ _ => 200

/-- New refresh token minted on a successful rotation: fresh `jti` and
`exp`, the session id written in, and the scope claim copied from the
presented token (written only when the presented token carries one). -/
def mkNewRefresh (tok : Token) (sid newJti : String) (newExp : Nat) : Token :=
  { jti := newJti, session_id := some sid, scope := tok.scope, exp := newExp }

/-- New access token derived from the new refresh token: the session id
written in and the scope claim copied from the new refresh token
(written only when present), hence from the presented token. -/
def mkNewAccess (tok : Token) (sid accessJti : String) (accessExp : Nat) : Token :=
  { jti := accessJti, session_id := some sid, scope := tok.scope, exp := accessExp }

/-- The `TokenRefreshAPIView.post` handler of `authorization/views.py`.
`cookie` is the refresh cookie (`none` absent, `some none` failing
validation, `some (some tok)` validated); `newJti`, `newExp`,
`accessJti`, `accessExp` are the fresh ids and expiries the simplejwt
codec mints for the new pair; `now` is the request time.  The store is
threaded explicitly; the view reads the session once for the scope
check, reads it again, compares the presented `jti` against the stored
`refresh_jti`, and either revokes (mismatch) or rotates via
`update_session_jti` (whose boolean result the view discards). -/
def tokenRefreshPost (cookie : Option (Option Token)) (path : String)
    (now : Nat) (newJti : String) (newExp : Nat)
    (accessJti : String) (accessExp : Nat) (st : Store) :
    RotateResult × Store :=
  match cookie with
  | none => (.noToken, st)
  | some none => (.invalidToken, st)
  | some (some tok) =>
    match tok.session_id with
    | none => (.malformed, st)
    | some sid =>
      let requestedScope := scope_from_path path
      match get_session st sid with
      | none => (.sessionNotFound, st)
      | some sess =>
        if requestedScope.isSome && requestedScope != some sess.scope then
          (.scopeMismatch, st)
        else
          match get_session st sid with
          | none => (.sessionNotFound, st)
          | some sess2 =>
            if tok.jti != sess2.refresh_jti then
              (.replayDetected, revoke_session st sid)
            else
              let newRefresh := mkNewRefresh tok sid newJti newExp
              let newAccess := mkNewAccess tok sid accessJti accessExp
              (.ok newAccess newRefresh,
               (update_session_jti st sid newJti newExp now).2)

/-- Outcome of `LogoutAPIView.post` in `authorization/views.py`. -/
inductive LogoutResult where
  | loggedOut
  | alreadyRevoked
  | scopeRejected
deriving Repr, DecidableEq

/-- HTTP status attached to each outcome of `LogoutAPIView.post`. -/
def logoutStatus : LogoutResult → Nat
  | .loggedOut => 200
  | .alreadyRevoked => 200
  | .scopeRejected => 403

/-- The `LogoutAPIView.post` handler of `authorization/views.py`.
`sessionId` is the session id resolved from whichever presented token
validated (refresh cookie preferred, access token fallback) — `none`
when no token yields one.  With no session id the view just clears
cookies (200); with one, an absent session answers 200 without
touching the store, a scope mismatch answers 403 without revoking,
and otherwise the session is revoked (200). -/
def logoutPost (sessionId : Option String) (path : String) (st : Store) :
    LogoutResult × Store :=
  match sessionId with
  | none => (.loggedOut, st)
  | some sid =>
    match get_session st sid with
    | none => (.alreadyRevoked, st)
    | some sess =>
      let requestedScope := scope_from_path path
      if requestedScope.isSome && requestedScope != some sess.scope then
        (.scopeRejected, st)
      else
        (.loggedOut, revoke_session st sid)

/-- The `ScopePermission.has_permission` check of
`authorization/permissions.py`.  `auth` is `request.auth`: `none` when
no token was attached, `some scope` when a token is attached whose
`scope` claim is `scope` (`none` inside when the claim is missing or
the token carries no mapping interface).  A pure function of the path
and the claim. -/
def hasPermission (auth : Option (Option String)) (path : String) : Bool :=
  match auth with
  | none => false
  | some scope =>
    let p := lowerStr path
    if startsWithStr p "/api/admin/" then scope == some "admin"
    else if startsWithStr p "/api/user/" then scope == some "user"
    else if startsWithStr p "/api/" then scope == some "user" || scope == some "admin"
    else false

/-- Outcome of `CookieJWTAuthentication.authenticate` in
`authorization/authentication.py`, one constructor per exit point. -/
inductive AuthResult where
  | anonymous
  | failedInvalid
  | failedNoSession
  | failedRevoked
  | ok (tok : Token)
deriving Repr, DecidableEq

/-- The `CookieJWTAuthentication.authenticate` gate of
`authorization/authentication.py`.  `raw` is the bearer/cookie token
(header preferred): `none` = no raw token (authenticate returns
`None`), `some none` = token failing validation, `some (some tok)` =
validated claims.  The only store interaction is the `get_session`
read; the store is threaded to make that frame property statable. -/
def authenticate (raw : Option (Option Token)) (st : Store) :
    AuthResult × Store :=
  match raw with
  | none => (.anonymous, st)
  | some none => (.failedInvalid, st)
  | some (some tok) =>
    match tok.session_id with
    | none => (.failedNoSession, st)
    | some sid =>
      match get_session st sid with
      | none => (.failedRevoked, st)
      | some _ => (.ok tok, st)

/-- What the REST framework machinery sees after running the
authentication gate on a protected view (`UserAPIView`): no
credentials at all, an authentication failure, or an attached
identity whose token carries the given `scope` claim. -/
inductive GateOutcome where
  | noCredentials
  | authFailed
  | identity (scope : Option String)
deriving Repr, DecidableEq

/-- Collapse of `CookieJWTAuthentication.authenticate` results into the
gate outcome the permission layer sees. -/
def gateOf : AuthResult → GateOutcome
  | .anonymous => .noCredentials
  | .failedInvalid => .authFailed
  | .failedNoSession => .authFailed
  | .failedRevoked => .authFailed
  | .ok tok => .identity tok.scope

/-- Status normalisation of `custom_exception_handler` in
`core/exception_handler.py`: after the framework handles an exception,
a 403 response has its status code rewritten to 401; every other
status passes through. -/
def custom_exception_handler_status (s : Nat) : Nat :=
  if s = 403 then 401 else s

/-- Response status of a protected view (`UserAPIView`: authentication
plus `IsAuthenticated` and `ScopePermission`), with exception
responses normalised by `custom_exception_handler`: missing
credentials raise NotAuthenticated (401), a failed authentication
raises AuthenticationFailed (401), a permission denial raises
PermissionDenied (403), and a granted request runs the handler
(200). -/
def protectedViewStatus (g : GateOutcome) (path : String) : Nat :=
  match g with
  | .noCredentials => custom_exception_handler_status 401
  | .authFailed => custom_exception_handler_status 401
  | .identity scope =>
    if hasPermission (some scope) path then 200
    else custom_exception_handler_status 403

/-- End-to-end status of a `GET` on the protected user view: the
authentication gate feeds the permission layer and the exception
handler normalises the response. -/
def meEndpointStatus (raw : Option (Option Token)) (st : Store)
    (path : String) : Nat :=
  protectedViewStatus (gateOf (authenticate raw st).1) path

/-- Local state of one in-flight `TokenRefreshAPIView.post` request,
decomposed at the granularity of its atomic store operations: `pc`
counts the store interactions performed so far (0 = first
`get_session` plus scope check, 1 = second `get_session`, 2 = jti
comparison on the snapshot, 3 = the `get_session` inside
`update_session_jti`, 4 = the `cache.set` inside it); `snap` holds the
most recent read; `res` is set once the request has answered. -/
structure RotThread where
  tok : Token
  newJti : String
  newExp : Nat
  accessJti : String
  accessExp : Nat
  pc : Nat
  snap : Option StoredSession
  res : Option RotateResult
deriving Repr, DecidableEq

/-- Successful response of an in-flight rotation request: the token
pair minted from its parameters. -/
def finishedOk (th : RotThread) (sid : String) : RotateResult :=
  .ok (mkNewAccess th.tok sid th.accessJti th.accessExp)
    (mkNewRefresh th.tok sid th.newJti th.newExp)

/-- One atomic step of an in-flight `TokenRefreshAPIView.post` request
against the shared store.  The decomposition performs exactly the
store operations of the source, in order: `get_session` (scope
check), `get_session` (jti read), local comparison (revoking on
mismatch), then `update_session_jti` as its two operations — a read
(whose `False` result the view discards, still answering 200) and a
write.  A finished thread steps to itself. -/
def rotStep (path : String) (now : Nat) (th : RotThread) (st : Store) :
    RotThread × Store :=
  match th.res with
  | some _ => (th, st)
  | none =>
    match th.tok.session_id with
    | none => ({ th with res := some .malformed }, st)
    | some sid =>
      match th.pc with
      | 0 =>
        match get_session st sid with
        | none => ({ th with res := some .sessionNotFound }, st)
        | some sess =>
          let requestedScope := scope_from_path path
          if requestedScope.isSome && requestedScope != some sess.scope then
            ({ th with res := some .scopeMismatch }, st)
          else ({ th with pc := 1 }, st)
      | 1 =>
        match get_session st sid with
        | none => ({ th with res := some .sessionNotFound }, st)
        | some sess => ({ th with pc := 2, snap := some sess }, st)
      | 2 =>
        match th.snap with
        | none => (th, st)
        | some sess =>
          if th.tok.jti != sess.refresh_jti then
            ({ th with res := some .replayDetected }, revoke_session st sid)
          else ({ th with pc := 3 }, st)
      | 3 =>
        match get_session st sid with
        | none => ({ th with res := some (finishedOk th sid) }, st)
        | some sess => ({ th with pc := 4, snap := some sess }, st)
      | _ =>
        match th.snap with
        | none => (th, st)
        | some sess =>
          ({ th with res := some (finishedOk th sid) },
           cacheSet st sid ⟨{ sess with refresh_jti := th.newJti }, th.newExp - now⟩)

/-- Interleaved execution of two concurrent rotation requests sharing
the store under a schedule: `true` steps the first request, `false`
the second.  Per-key store operations are atomic (one per step),
exactly the guarantee the key-value service provides. -/
def runSched (path : String) (now : Nat) :
    List Bool → RotThread × RotThread × Store → RotThread × RotThread × Store
  | [], s => s
  | b :: rest, (t1, t2, st) =>
    if b then
      let s1 := rotStep path now t1 st
      runSched path now rest (s1.1, t2, s1.2)
    else
      let s2 := rotStep path now t2 st
      runSched path now rest (t1, s2.1, s2.2)

/-- Decides whether an in-flight request has answered 200 with a new
token pair. -/
def isOkResult : Option RotateResult → Bool
  | some (.ok _ _) => true
  | _ => false

/-- One rotation derivation step: `tp` is one of the two tokens minted
by a successful `TokenRefreshAPIView.post` call presenting `t`, under
some store, route and fresh token parameters. -/
def RotDeriv (t tp : Token) : Prop :=
  ∃ path now newJti newExp accessJti accessExp st acc ref stp,
    tokenRefreshPost (some (some t)) path now newJti newExp accessJti accessExp st
      = (.ok acc ref, stp) ∧ (tp = acc ∨ tp = ref)

/-- Scope precondition under which a rotation request reaches the jti
comparison: the route either binds no scope or binds exactly the
session scope. -/
def ScopeOk (r : Option String) (s : String) : Prop :=
  r = none ∨ r = some s

/-- Initial configuration for two concurrent rotation requests on one
session: the store holds session `s1` whose current refresh id is
`j0`, and both requests present the currently valid refresh token
with jti `j0`, each about to mint its own fresh pair (`jA`/`aA`
versus `jB`/`aB`). -/
def raceStart : RotThread × RotThread × Store :=
  (⟨⟨"j0", some "s1", some "user", 900⟩, "jA", 500, "aA", 60, 0, none, none⟩,
   ⟨⟨"j0", some "s1", some "user", 900⟩, "jB", 500, "aB", 60, 0, none, none⟩,
   [("s1", ⟨⟨"u1", "j0", "user"⟩, 100⟩)])

/-- Schedule in which both requests perform their session reads before
either performs its write: request A runs up to its second read, B
runs its two reads, A finishes (compare, read, write), then B
finishes. -/
def raceSchedule : List Bool :=
  [true, true, false, false, true, true, true, false, false, false]

/-- Fully serialised schedule: request A runs to completion, then
request B. -/
def raceSerial : List Bool :=
  [true, true, true, true, true, false, false, false, false, false]

/-- Final configuration after running the interleaved schedule from
`raceStart`. -/
def raceResult : RotThread × RotThread × Store :=
  runSched "/api/user/refresh" 10 raceSchedule raceStart

/-- Lookup through a deletion of a different key is unchanged. -/
theorem find_filter_of_ne (st : Store) (k kp : String) (h : kp ≠ k) :
    (st.filter (fun p => p.1 != k)).find? (fun p => p.1 == kp)
      = st.find? (fun p => p.1 == kp) := by
  induction st with
  | nil => rfl
  | cons a rest ih =>
    by_cases hak : a.1 = k
    · have h1 : (a.1 != k) = false := by simp [hak]
      have h2 : (a.1 == kp) = false := by
        simp [hak]
        exact fun e => h e.symm
      simp [List.filter_cons, h1, List.find?_cons, h2, ih]
    · have h1 : (a.1 != k) = true := by simp [hak]
      by_cases hkp : a.1 = kp
      · simp [List.filter_cons, h1, List.find?_cons, hkp, h]
      · have h2 : (a.1 == kp) = false := by simp [hkp]
        simp [List.filter_cons, h1, List.find?_cons, h2, ih]

/-- Reading back the key just written yields the written entry. -/
theorem cacheGet_set_self (st : Store) (k : String) (e : CacheEntry) :
    cacheGet (cacheSet st k e) k = some e := by
  simp [cacheGet, cacheSet, List.find?_cons]

/-- Writing one key leaves reads of every other key unchanged. -/
theorem cacheGet_set_other (st : Store) (k kp : String) (e : CacheEntry)
    (h : kp ≠ k) :
    cacheGet (cacheSet st k e) kp = cacheGet st kp := by
  have h2 : (k == kp) = false := by
    simp
    exact fun e => h e.symm
  simp [cacheGet, cacheSet, List.find?_cons, h2, find_filter_of_ne st k kp h]

/-- Lookup of a key inside a list from which it was filtered out
fails. -/
theorem find_delete_self (st : Store) (k : String) :
    (st.filter (fun p => p.1 != k)).find? (fun p => p.1 == k) = none := by
  rw [List.find?_eq_none]
  intro x hx
  have := List.of_mem_filter hx
  simpa using this

/-- Reading a deleted key fails. -/
theorem cacheGet_delete_self (st : Store) (k : String) :
    cacheGet (cacheDelete st k) k = none := by
  simp [cacheGet, cacheDelete, find_delete_self st k]

/-- Deleting one key leaves reads of every other key unchanged. -/
theorem cacheGet_delete_other (st : Store) (k kp : String) (h : kp ≠ k) :
    cacheGet (cacheDelete st k) kp = cacheGet st kp := by
  simp [cacheGet, cacheDelete, find_filter_of_ne st k kp h]

/-- Deleting an absent key is the identity on the store. -/
theorem cacheDelete_absent (st : Store) (k : String) (h : cacheGet st k = none) :
    cacheDelete st k = st := by
  simp only [cacheGet, Option.map_eq_none'] at h
  rw [List.find?_eq_none] at h
  rw [cacheDelete, List.filter_eq_self]
  intro x hx
  have := h x hx
  simpa using this

/-- A passing scope binding makes the rejection condition of the
rotation and logout views false. -/
theorem scopeOk_cond_false (r : Option String) (s : String) (h : ScopeOk r s) :
    (r.isSome && r != some s) = false := by
  rcases h with h | h <;> simp [h]

/-- C10: for every session id absent from the session store,
`update_session_jti` returns `False` and leaves the store unchanged —
it never creates a record, so a revoked or expired session cannot be
resurrected by a rotation update. -/
theorem update_session_jti_absent (st : Store) (sid nJti : String) (e n : Nat)
    (h : get_session st sid = none) :
    update_session_jti st sid nJti e n = (false, st) := by
  simp [update_session_jti, h]

/-- Witness for C10 at a concrete empty store. -/
theorem update_session_jti_absent_witness :
    get_session [] "s1" = none
    ∧ update_session_jti [] "s1" "j1" 500 10 = (false, []) :=
  ⟨by decide, update_session_jti_absent [] "s1" "j1" 500 10 (by decide)⟩

/-- C8: the authenticate operation never mutates the session store —
every branch returns the store as received, so every session ttl is
unchanged by an authenticated read; a ttl is reset only by the
explicit rotation write. -/
theorem authenticate_reads_only (raw : Option (Option Token)) (st : Store) :
    (authenticate raw st).2 = st
    ∧ ∀ sid, sessionTTL (authenticate raw st).2 sid = sessionTTL st sid := by
  have h2 : (authenticate raw st).2 = st := by
    cases raw with
    | none => rfl
    | some o =>
      cases o with
      | none => rfl
      | some tok =>
        simp only [authenticate]
        split
        · rfl
        · split <;> rfl
  exact ⟨h2, fun sid => by rw [h2]⟩

/-- C6: the scope authorizer is the pure function `hasPermission` of
the request path and token scope: a path under the admin area is
granted exactly for scope admin, a path under the user area exactly
for scope user, any other API path exactly for scope user or admin,
and every other path — or any request with no token attached — is
denied. -/
theorem scope_authorizer_cases (scope : Option String) (path : String) :
    (hasPermission none path = false)
    ∧ (startsWithStr (lowerStr path) "/api/admin/" = true →
        (hasPermission (some scope) path = true ↔ scope = some "admin"))
    ∧ (startsWithStr (lowerStr path) "/api/admin/" = false →
       startsWithStr (lowerStr path) "/api/user/" = true →
        (hasPermission (some scope) path = true ↔ scope = some "user"))
    ∧ (startsWithStr (lowerStr path) "/api/admin/" = false →
       startsWithStr (lowerStr path) "/api/user/" = false →
       startsWithStr (lowerStr path) "/api/" = true →
        (hasPermission (some scope) path = true
          ↔ (scope = some "user" ∨ scope = some "admin")))
    ∧ (startsWithStr (lowerStr path) "/api/admin/" = false →
       startsWithStr (lowerStr path) "/api/user/" = false →
       startsWithStr (lowerStr path) "/api/" = false →
        hasPermission (some scope) path = false) := by
  refine ⟨rfl, ?_, ?_, ?_, ?_⟩
  · intro h1
    simp [hasPermission, h1]
  · intro h1 h2
    simp [hasPermission, h1, h2]
  · intro h1 h2 h3
    simp [hasPermission, h1, h2, h3]
  · intro h1 h2 h3
    simp [hasPermission, h1, h2, h3]

/-- Witness for C6 on concrete admin and plain API paths. -/
theorem scope_authorizer_cases_witness :
    (hasPermission (some (some "admin")) "/api/admin/x" = true)
    ∧ (hasPermission (some (some "user")) "/api/quiz" = true) :=
  ⟨((scope_authorizer_cases (some "admin") "/api/admin/x").2.1 (by decide)).mpr
      rfl,
   ((scope_authorizer_cases (some "user") "/api/quiz").2.2.2.1 (by decide)
      (by decide) (by decide)).mpr (Or.inl rfl)⟩

/-- C1: when a verified refresh token resolves to an existing session
but its jti differs from the stored current refresh id, the rotation
view deletes the session outright via `revoke_session` and answers
replay-detected with status 401; consequently every subsequent
rotation presenting any token of that session — the most recently
issued one included — answers session-not-found. -/
theorem replay_revokes_session
    (tok : Token) (path : String) (now : Nat) (nJti : String) (nExp : Nat)
    (aJti : String) (aExp : Nat) (st : Store) (sid : String)
    (sess : StoredSession)
    (hsid : tok.session_id = some sid)
    (hget : get_session st sid = some sess)
    (hscope : ScopeOk (scope_from_path path) sess.scope)
    (hmis : tok.jti ≠ sess.refresh_jti) :
    tokenRefreshPost (some (some tok)) path now nJti nExp aJti aExp st
      = (.replayDetected, revoke_session st sid)
    ∧ rotateStatus .replayDetected = 401
    ∧ get_session (revoke_session st sid) sid = none
    ∧ ∀ (tokp : Token) (pathp : String) (nowp : Nat) (njp : String)
        (nep : Nat) (ajp : String) (aep : Nat), tokp.session_id = some sid →
        tokenRefreshPost (some (some tokp)) pathp nowp njp nep ajp aep
            (revoke_session st sid)
          = (.sessionNotFound, revoke_session st sid) := by
  have hcond := scopeOk_cond_false _ _ hscope
  have hgone : get_session (revoke_session st sid) sid = none := by
    simp [get_session, revoke_session, cacheGet_delete_self]
  refine ⟨?_, rfl, hgone, ?_⟩
  · simp only [tokenRefreshPost, hsid, hget, hcond]
    simp [bne_iff_ne, hmis]
  · intro tokp pathp nowp njp nep ajp aep hsidp
    simp only [tokenRefreshPost, hsidp, hgone]

/-- Witness for C1: replaying a superseded token revokes the session,
after which even the current token is rejected. -/
theorem replay_revokes_session_witness :
    tokenRefreshPost (some (some ⟨"jOLD", some "s1", some "user", 900⟩))
        "/api/user/refresh" 10 "j1" 500 "a1" 60
        [("s1", ⟨⟨"u1", "j0", "user"⟩, 100⟩)]
      = (.replayDetected,
         revoke_session [("s1", ⟨⟨"u1", "j0", "user"⟩, 100⟩)] "s1")
    ∧ tokenRefreshPost (some (some ⟨"j0", some "s1", some "user", 900⟩))
        "/api/user/refresh" 20 "j2" 600 "a2" 70
        (revoke_session [("s1", ⟨⟨"u1", "j0", "user"⟩, 100⟩)] "s1")
      = (.sessionNotFound,
         revoke_session [("s1", ⟨⟨"u1", "j0", "user"⟩, 100⟩)] "s1") := by
  have h := replay_revokes_session ⟨"jOLD", some "s1", some "user", 900⟩
    "/api/user/refresh" 10 "j1" 500 "a1" 60
    [("s1", ⟨⟨"u1", "j0", "user"⟩, 100⟩)] "s1" ⟨"u1", "j0", "user"⟩
    rfl (by decide) (Or.inr (by decide)) (by decide)
  exact ⟨h.1, h.2.2.2 ⟨"j0", some "s1", some "user", 900⟩ "/api/user/refresh"
    20 "j2" 600 "a2" 70 rfl⟩

/-- C3: when the presented refresh token matches the stored current
refresh id, rotation answers 200 with a new refresh and access token
both carrying the same session id and the scope of the presented
token, the stored current refresh id becomes the new refresh jti, and
the store ttl is reset to the time-to-expiry of the new refresh
token. -/
theorem rotation_match_succeeds
    (tok : Token) (path : String) (now : Nat) (nJti : String) (nExp : Nat)
    (aJti : String) (aExp : Nat) (st : Store) (sid : String)
    (sess : StoredSession)
    (hsid : tok.session_id = some sid)
    (hget : get_session st sid = some sess)
    (hscope : ScopeOk (scope_from_path path) sess.scope)
    (hmatch : tok.jti = sess.refresh_jti) :
    ∃ acc ref stp,
      tokenRefreshPost (some (some tok)) path now nJti nExp aJti aExp st
        = (.ok acc ref, stp)
      ∧ rotateStatus (.ok acc ref) = 200
      ∧ ref.session_id = some sid ∧ acc.session_id = some sid
      ∧ ref.scope = tok.scope ∧ acc.scope = tok.scope
      ∧ ref.jti = nJti ∧ ref.exp = nExp
      ∧ get_session stp sid = some { sess with refresh_jti := nJti }
      ∧ sessionTTL stp sid = some (nExp - now) := by
  have hcond := scopeOk_cond_false _ _ hscope
  have hupd : (update_session_jti st sid nJti nExp now).2
      = cacheSet st sid ⟨{ sess with refresh_jti := nJti }, nExp - now⟩ := by
    simp [update_session_jti, hget]
  refine ⟨mkNewAccess tok sid aJti aExp, mkNewRefresh tok sid nJti nExp,
    (update_session_jti st sid nJti nExp now).2, ?_, rfl, rfl, rfl, rfl, rfl,
    rfl, rfl, ?_, ?_⟩
  · simp only [tokenRefreshPost, hsid, hget, hcond]
    simp [hmatch]
  · rw [hupd]
    simp [get_session, cacheGet_set_self]
  · rw [hupd]
    simp [sessionTTL, cacheGet_set_self]

/-- Witness for C3 at a concrete matching rotation. -/
theorem rotation_match_succeeds_witness :
    ∃ acc ref stp,
      tokenRefreshPost (some (some ⟨"j0", some "s1", some "user", 900⟩))
          "/api/user/refresh" 10 "j1" 500 "a1" 60
          [("s1", ⟨⟨"u1", "j0", "user"⟩, 100⟩)]
        = (.ok acc ref, stp)
      ∧ rotateStatus (.ok acc ref) = 200
      ∧ ref.session_id = some "s1" ∧ acc.session_id = some "s1"
      ∧ ref.scope = (⟨"j0", some "s1", some "user", 900⟩ : Token).scope
      ∧ acc.scope = (⟨"j0", some "s1", some "user", 900⟩ : Token).scope
      ∧ ref.jti = "j1" ∧ ref.exp = 500
      ∧ get_session stp "s1" = some ⟨"u1", "j1", "user"⟩
      ∧ sessionTTL stp "s1" = some (500 - 10) :=
  rotation_match_succeeds ⟨"j0", some "s1", some "user", 900⟩
    "/api/user/refresh" 10 "j1" 500 "a1" 60
    [("s1", ⟨⟨"u1", "j0", "user"⟩, 100⟩)] "s1" ⟨"u1", "j0", "user"⟩
    rfl (by decide) (Or.inr (by decide)) (by decide)

/-- C7: a rotate or logout request whose resolved session exists but
whose session scope differs from the scope the route requires answers
403 and returns the store exactly as received — the session is not
revoked and its refresh id and ttl are untouched. -/
theorem scope_mismatch_no_mutation
    (tok : Token) (path : String) (now : Nat) (nJti : String) (nExp : Nat)
    (aJti : String) (aExp : Nat) (st : Store) (sid : String)
    (sess : StoredSession) (rs : String)
    (hsid : tok.session_id = some sid)
    (hget : get_session st sid = some sess)
    (hrs : scope_from_path path = some rs)
    (hne : rs ≠ sess.scope) :
    tokenRefreshPost (some (some tok)) path now nJti nExp aJti aExp st
      = (.scopeMismatch, st)
    ∧ rotateStatus .scopeMismatch = 403
    ∧ logoutPost (some sid) path st = (.scopeRejected, st)
    ∧ logoutStatus .scopeRejected = 403 := by
  have hcond : ((scope_from_path path).isSome
      && scope_from_path path != some sess.scope) = true := by
    simp [hrs, bne_iff_ne, hne]
  refine ⟨?_, rfl, ?_, rfl⟩
  · simp only [tokenRefreshPost, hsid, hget, hcond]
    rfl
  · simp only [logoutPost, hget, hcond]
    rfl

/-- Witness for C7: a user-scope session presented on an admin route. -/
theorem scope_mismatch_no_mutation_witness :
    tokenRefreshPost (some (some ⟨"j0", some "s1", some "user", 900⟩))
        "/api/admin/refresh" 10 "j1" 500 "a1" 60
        [("s1", ⟨⟨"u1", "j0", "user"⟩, 100⟩)]
      = (.scopeMismatch, [("s1", ⟨⟨"u1", "j0", "user"⟩, 100⟩)])
    ∧ logoutPost (some "s1") "/api/admin/refresh"
        [("s1", ⟨⟨"u1", "j0", "user"⟩, 100⟩)]
      = (.scopeRejected, [("s1", ⟨⟨"u1", "j0", "user"⟩, 100⟩)]) := by
  have h := scope_mismatch_no_mutation ⟨"j0", some "s1", some "user", 900⟩
    "/api/admin/refresh" 10 "j1" 500 "a1" 60
    [("s1", ⟨⟨"u1", "j0", "user"⟩, 100⟩)] "s1" ⟨"u1", "j0", "user"⟩ "admin"
    rfl (by decide) (by decide) (by decide)
  exact ⟨h.1, h.2.2.1⟩

/-- C2: the read-compare-write of rotation is not atomic.  Under the
interleaving in which both concurrent rotation requests presenting
the same currently valid refresh token perform their session reads
before either writes, both requests answer 200 and two distinct new
refresh tokens (`jA` and `jB`) are issued for the one session; only
the fully serialised schedule produces the intended
one-success-one-replay outcome. -/
theorem concurrent_rotation_double_success :
    raceResult.1.res
      = some (.ok ⟨"aA", some "s1", some "user", 60⟩
          ⟨"jA", some "s1", some "user", 500⟩)
    ∧ raceResult.2.1.res
      = some (.ok ⟨"aB", some "s1", some "user", 60⟩
          ⟨"jB", some "s1", some "user", 500⟩)
    ∧ isOkResult raceResult.1.res = true
    ∧ isOkResult raceResult.2.1.res = true
    ∧ (runSched "/api/user/refresh" 10 raceSerial raceStart).1.res
        = some (.ok ⟨"aA", some "s1", some "user", 60⟩
            ⟨"jA", some "s1", some "user", 500⟩)
    ∧ (runSched "/api/user/refresh" 10 raceSerial raceStart).2.1.res
        = some .replayDetected := by
  refine ⟨by decide, by decide, by decide, by decide, by decide, by decide⟩

/-- C9: logout is idempotent — if a first logout on a resolved session
answers 200, a second logout on the same session answers 200 and is a
no-op on the store; and revoking an absent session is not an error
(it is the identity on the store). -/
theorem logout_idempotent
    (sid : String) (path : String) (st st1 : Store) (r1 : LogoutResult)
    (hfirst : logoutPost (some sid) path st = (r1, st1))
    (h200 : logoutStatus r1 = 200) :
    logoutStatus (logoutPost (some sid) path st1).1 = 200
    ∧ (logoutPost (some sid) path st1).2 = st1
    ∧ ∀ (stp : Store) (sidp : String), get_session stp sidp = none →
        revoke_session stp sidp = stp := by
  have hrevoke : ∀ (stp : Store) (sidp : String), get_session stp sidp = none →
      revoke_session stp sidp = stp := by
    intro stp sidp h
    apply cacheDelete_absent
    simpa [get_session, Option.map_eq_none'] using h
  cases hg : get_session st sid with
  | none =>
    simp only [logoutPost, hg] at hfirst
    injection hfirst with hr hst
    subst hst
    refine ⟨?_, ?_, hrevoke⟩
    · simp [logoutPost, hg, logoutStatus]
    · simp [logoutPost, hg]
  | some sess =>
    simp only [logoutPost, hg] at hfirst
    by_cases hc : ((scope_from_path path).isSome
        && scope_from_path path != some sess.scope) = true
    · rw [if_pos hc] at hfirst
      injection hfirst with hr hst
      rw [← hr] at h200
      simp [logoutStatus] at h200
    · rw [if_neg hc] at hfirst
      injection hfirst with hr hst
      subst hst
      have hgone : get_session (revoke_session st sid) sid = none := by
        simp [get_session, revoke_session, cacheGet_delete_self]
      refine ⟨?_, ?_, hrevoke⟩
      · simp [logoutPost, hgone, logoutStatus]
      · simp [logoutPost, hgone]

/-- Witness for C9: two consecutive logouts of one concrete session. -/
theorem logout_idempotent_witness :
    logoutStatus (logoutPost (some "s1") "/api/user/logout"
        (logoutPost (some "s1") "/api/user/logout"
          [("s1", ⟨⟨"u1", "j0", "user"⟩, 100⟩)]).2).1 = 200
    ∧ (logoutPost (some "s1") "/api/user/logout"
        (logoutPost (some "s1") "/api/user/logout"
          [("s1", ⟨⟨"u1", "j0", "user"⟩, 100⟩)]).2).2
      = (logoutPost (some "s1") "/api/user/logout"
          [("s1", ⟨⟨"u1", "j0", "user"⟩, 100⟩)]).2 := by
  have h := logout_idempotent "s1" "/api/user/logout"
    [("s1", ⟨⟨"u1", "j0", "user"⟩, 100⟩)] [] .loggedOut (by decide) (by decide)
  exact ⟨h.1, h.2.1⟩

/-- C5 counterexample: a request with a valid identity of scope user on
an admin route is denied by the scope authorizer, yet the protected
endpoint answers 401, not 403 — `custom_exception_handler` rewrites
the 403 permission denial to 401. -/
theorem scope_denied_status_counterexample :
    hasPermission (some (some "user")) "/api/admin/categories" = false
    ∧ meEndpointStatus (some (some ⟨"a0", some "s1", some "user", 900⟩))
        [("s1", ⟨⟨"u1", "j0", "user"⟩, 100⟩)] "/api/admin/categories" = 401
    ∧ meEndpointStatus (some (some ⟨"a0", some "s1", some "user", 900⟩))
        [("s1", ⟨⟨"u1", "j0", "user"⟩, 100⟩)] "/api/admin/categories" ≠ 403 :=
  ⟨by decide, by decide, by decide⟩

/-- C5 as amended: on a protected endpoint, an absent or invalid
credential yields 401, and a valid identity whose scope the authorizer
denies also yields 401 (the exception handler rewrites the 403); a
granted request yields 200. -/
theorem protected_endpoint_statuses (g : GateOutcome) (path : String) :
    (g = .noCredentials ∨ g = .authFailed → protectedViewStatus g path = 401)
    ∧ (∀ scope, g = .identity scope → hasPermission (some scope) path = false →
        protectedViewStatus g path = 401)
    ∧ (∀ scope, g = .identity scope → hasPermission (some scope) path = true →
        protectedViewStatus g path = 200) := by
  refine ⟨?_, ?_, ?_⟩
  · rintro (rfl | rfl) <;> rfl
  · rintro scope rfl hperm
    simp [protectedViewStatus, hperm, custom_exception_handler_status]
  · rintro scope rfl hperm
    simp [protectedViewStatus, hperm]

/-- Witness for the amended C5 at concrete gate outcomes. -/
theorem protected_endpoint_statuses_witness :
    protectedViewStatus (.identity (some "user")) "/api/admin/x" = 401
    ∧ protectedViewStatus (.identity (some "user")) "/api/user/x" = 200
    ∧ protectedViewStatus .noCredentials "/api/user/x" = 401 :=
  ⟨(protected_endpoint_statuses (.identity (some "user")) "/api/admin/x").2.1
      (some "user") rfl (by decide),
   (protected_endpoint_statuses (.identity (some "user")) "/api/user/x").2.2
      (some "user") rfl (by decide),
   (protected_endpoint_statuses .noCredentials "/api/user/x").1 (Or.inl rfl)⟩

/-- Tokens minted by a successful rotation carry exactly the scope of
the presented token. -/
theorem rotation_preserves_scope (t tp : Token) (h : RotDeriv t tp) :
    tp.scope = t.scope := by
  obtain ⟨path, now, nJti, nExp, aJti, aExp, st, acc, ref, stp, heq, hor⟩ := h
  cases hs : t.session_id with
  | none =>
    simp only [tokenRefreshPost, hs] at heq
    exact RotateResult.noConfusion (congrArg Prod.fst heq)
  | some sid =>
    simp only [tokenRefreshPost, hs] at heq
    cases hg : get_session st sid with
    | none =>
      simp only [hg] at heq
      exact RotateResult.noConfusion (congrArg Prod.fst heq)
    | some sess =>
      simp only [hg] at heq
      by_cases hc : ((scope_from_path path).isSome
          && scope_from_path path != some sess.scope) = true
      · rw [if_pos hc] at heq
        exact RotateResult.noConfusion (congrArg Prod.fst heq)
      · rw [if_neg hc] at heq
        by_cases hj : (t.jti != sess.refresh_jti) = true
        · rw [if_pos hj] at heq
          exact RotateResult.noConfusion (congrArg Prod.fst heq)
        · rw [if_neg hj] at heq
          injection heq with hres hst
          injection hres with hacc href
          rcases hor with rfl | rfl
          · rw [← hacc]; rfl
          · rw [← href]; rfl

/-- The scope claim is invariant along any chain of rotations. -/
theorem chain_preserves_scope (t tp : Token)
    (h : Relation.ReflTransGen RotDeriv t tp) : tp.scope = t.scope := by
  induction h with
  | refl => rfl
  | tail hab hbc ih => rw [rotation_preserves_scope _ _ hbc, ih]

/-- C4: the stored scope (and user id) of a session is never changed by
the rotation update — `update_session_jti` rewrites only the refresh
id and ttl — and every token derived from a user-scope token through
any number of rotations still carries scope user, so the scope check
rejects it on every admin route. -/
theorem scope_immutable_main :
    (∀ (st : Store) (sid nJti : String) (e n : Nat) (sidp : String)
        (sessp : StoredSession),
       get_session (update_session_jti st sid nJti e n).2 sidp = some sessp →
       ∃ sess, get_session st sidp = some sess
         ∧ sessp.scope = sess.scope ∧ sessp.user_id = sess.user_id)
    ∧ (∀ t tp, Relation.ReflTransGen RotDeriv t tp → t.scope = some "user" →
        ∀ path, startsWithStr (lowerStr path) "/api/admin/" = true →
          hasPermission (some tp.scope) path = false) := by
  constructor
  · intro st sid nJti e n sidp sessp hsp
    cases hg : get_session st sid with
    | none =>
      simp only [update_session_jti, hg] at hsp
      exact ⟨sessp, hsp, rfl, rfl⟩
    | some sess =>
      simp only [update_session_jti, hg] at hsp
      by_cases hseq : sidp = sid
      · subst hseq
        rw [get_session, cacheGet_set_self] at hsp
        have hval : ({ sess with refresh_jti := nJti } : StoredSession)
            = sessp := by
          simpa using hsp
        refine ⟨sess, hg, ?_, ?_⟩ <;> rw [← hval]
      · rw [get_session, cacheGet_set_other st sid sidp _ hseq] at hsp
        exact ⟨sessp, hsp, rfl, rfl⟩
  · intro t tp hchain hscope path hadm
    rw [chain_preserves_scope t tp hchain, hscope]
    simp [hasPermission, hadm]

/-- Witness for C4: one concrete rotation update preserves scope and
user id, and the refresh token minted by one concrete rotation of a
user-scope token is rejected on an admin route. -/
theorem scope_immutable_main_witness :
    (∃ sess, get_session [("s1", ⟨⟨"u1", "j0", "user"⟩, 100⟩)] "s1" = some sess
      ∧ (⟨"u1", "j1", "user"⟩ : StoredSession).scope = sess.scope
      ∧ (⟨"u1", "j1", "user"⟩ : StoredSession).user_id = sess.user_id)
    ∧ hasPermission (some (⟨"j1", some "s1", some "user", 500⟩ : Token).scope)
        "/api/admin/quiz" = false := by
  constructor
  · exact scope_immutable_main.1 [("s1", ⟨⟨"u1", "j0", "user"⟩, 100⟩)]
      "s1" "j1" 500 10 "s1" ⟨"u1", "j1", "user"⟩ (by decide)
  · refine scope_immutable_main.2 ⟨"j0", some "s1", some "user", 900⟩
      ⟨"j1", some "s1", some "user", 500⟩ (Relation.ReflTransGen.single ?_)
      rfl "/api/admin/quiz" (by decide)
    exact ⟨"/api/user/refresh", 10, "j1", 500, "a1", 60,
      [("s1", ⟨⟨"u1", "j0", "user"⟩, 100⟩)],
      ⟨"a1", some "s1", some "user", 60⟩, ⟨"j1", some "s1", some "user", 500⟩,
      [("s1", ⟨⟨"u1", "j1", "user"⟩, 490⟩)], by decide, Or.inr rfl⟩

end QuizAuth
